import Mathlib

/-!
Verification of the KYC document-verification pipeline.

Shallow embedding of the repository code:
  * `backend/risk_scorer.py`   — rule-based + AI-merged risk assessment
  * `backend/usage_tracker.py` — usage/retry governor
  * `kyc-agent/backend/issue_detector.py` — issue scoring and prioritization
  * `kyc-agent/backend/deriv_api.py`      — submission state machine
  * `kyc-agent/backend/vision_analyzer.py` — resilient response parsing

Python dictionaries with string values are modelled as association lists
`List (String × String)`; external effects (the AI second opinion, the
registration endpoint, wall-clock time) are modelled as explicit parameters.
-/

/-- Severity level of the risk, per `RiskLevel` in risk_scorer.py. -/
inductive RiskLevel where
  | low
  | medium
  | high
deriving DecidableEq, Repr

/-- Recommendation enum, per `Recommendation` in risk_scorer.py. -/
inductive Recommendation where
  | auto_approve
  | manual_review
  | reject
deriving DecidableEq, Repr

/-- One risk-factor entry. In Python these are dicts; all observed entries carry
a "factor", a "severity" and a "detail" key, and the data-mismatch entries
additionally carry a "field" key (modelled by `fieldName`). -/
structure RiskFactor where
  factor : String
  severity : String
  detail : String
  fieldName : Option String := none
deriving DecidableEq, Repr

/-- Result of a risk assessment, per the `RiskAssessment` dataclass. -/
structure RiskAssessment where
  risk_level : RiskLevel
  risk_score : Int
  risk_factors : List RiskFactor
  recommendation : Recommendation
  reasoning : String
  ai_generated : Bool
deriving DecidableEq, Repr

/-- A single mismatch entry between form data and extracted data.  In Python
this is a dict with keys "field", "form_value", "document_value", "message". -/
structure Mismatch where
  fieldName : String
  form_value : String
  document_value : String
  message : String
deriving DecidableEq, Repr

/-- Calendar date, standing in for Python `datetime.date`; comparison of dates
is lexicographic on (year, month, day), as for real dates. -/
structure PDate where
  year : Nat
  month : Nat
  day : Nat
deriving DecidableEq, Repr

/-- Strict comparison of dates (Python `exp_date < date.today()`). -/
def PDate.lt (a b : PDate) : Bool :=
  a.year < b.year ∨ (a.year = b.year ∧ (a.month < b.month ∨ (a.month = b.month ∧ a.day < b.day)))

/-- Association-list lookup, modelling Python `dict.get(k)` (None when absent). -/
def aGet (l : List (String × String)) (k : String) : Option String :=
  (l.find? (fun p => p.1 = k)).map (fun p => p.2)

/-- Association-list lookup with default, modelling Python `dict.get(k, d)`. -/
def aGetD (l : List (String × String)) (k d : String) : String :=
  match aGet l k with
  | some v => v
  | none => d

/-- Python truthy-or on optional strings: `x.get(k) or y` (an absent key or an
empty string falls through to `y`). -/
def orTruthy (a : Option String) (b : String) : String :=
  match a with
  | some v => if v = "" then b else v
  | none => b

/-- ASCII lowercase of one character (the KYC pipeline compares ASCII names). -/
def asciiToLower (c : Char) : Char :=
  if 65 ≤ c.toNat ∧ c.toNat ≤ 90 then Char.ofNat (c.toNat + 32) else c

/-- Lowercase ASCII model of Python `str.lower()`. -/
def pyLower (s : String) : String := String.mk (s.toList.map asciiToLower)

/-- Python string whitespace (the characters stripped by `str.strip()`). -/
def isPyWs (c : Char) : Bool :=
  c = ' ' ∨ c = '\t' ∨ c = '\n' ∨ c = '\r' ∨ c = '\x0b' ∨ c = '\x0c'

/-- Model of Python `str.strip()`. -/
def pyTrim (s : String) : String :=
  String.mk (((s.toList.dropWhile isPyWs).reverse.dropWhile isPyWs).reverse)

/-- Split a character list at every occurrence of `sep` (Python
`str.split(sep)` for a one-character separator, as used with "-", "/", "\n"). -/
def splitOnChar (sep : Char) (cs : List Char) : List (List Char) :=
  match cs with
  | [] => [[]]
  | c :: rest =>
    let r := splitOnChar sep rest
    if c = sep then [] :: r
    else
      match r with
      | h :: t => (c :: h) :: t
      | [] => [[c]]

/-- Join strings with a separator (Python `sep.join(xs)`). -/
def joinSep (sep : String) (xs : List String) : String :=
  match xs with
  | [] => ""
  | [x] => x
  | x :: rest => x ++ sep ++ joinSep sep rest

/-- Python `s.startswith("``" ++ "`")` for the fixed three-backtick fence. -/
def startsWithTicks (s : String) : Bool :=
  match s.toList with
  | '`' :: '`' :: '`' :: _ => true
  | _ => false

/-- Number of days in a month, with the Gregorian leap-year rule; used by the
model of `datetime.strptime` to validate day-of-month. -/
def daysInMonth (y m : Nat) : Nat :=
  if m = 2 then
    if y % 4 = 0 ∧ (y % 100 ≠ 0 ∨ y % 400 = 0) then 29 else 28
  else if m = 4 ∨ m = 6 ∨ m = 9 ∨ m = 11 then 30
  else 31

/-- Check that a list of characters is all ASCII digits and non-empty. -/
def allDigits (cs : List Char) : Bool :=
  ¬ cs.isEmpty ∧ cs.all (fun c => c.isDigit)

/-- Digits to number (the strings fed to it are validated by `allDigits`). -/
def digitsToNat (cs : List Char) : Nat :=
  cs.foldl (fun acc c => acc * 10 + (c.toNat - 48)) 0

/-- Model of `datetime.strptime(s, fmt).date()` for the three fixed layouts of
risk_scorer.py, given the separator and the order of the fields.  `ymd = true`
means the layout is year-sep-month-sep-day, otherwise day-sep-month-sep-year.
Returns `none` where strptime raises ValueError (wrong shape, invalid month or
day-of-month, year 0). -/
def parseDateWith (sep : Char) (ymd : Bool) (s : String) : Option PDate :=
  match splitOnChar sep s.toList with
  | [a, b, c] =>
    let ys := if ymd then a else c
    let ds := if ymd then c else a
    if allDigits ys ∧ allDigits b ∧ allDigits ds
        ∧ ys.length ≤ 4 ∧ b.length ≤ 2 ∧ ds.length ≤ 2 then
      let y := digitsToNat ys
      let m := digitsToNat b
      let d := digitsToNat ds
      if 1 ≤ y ∧ 1 ≤ m ∧ m ≤ 12 ∧ 1 ≤ d ∧ d ≤ daysInMonth y m then
        some ⟨y, m, d⟩
      else none
    else none
  | _ => none

/-- First of the three expiry-date formats of `_rule_based_risk` that parses:
"%Y-%m-%d", then "%d-%m-%Y", then "%d/%m/%Y" (the Python loop breaks at the
first format that does not raise). -/
def parseExpiry (s : String) : Option PDate :=
  match parseDateWith '-' true s with
  | some d => some d
  | none =>
    match parseDateWith '-' false s with
    | some d => some d
    | none => parseDateWith '/' false s

/-- Mismatch component of `_rule_based_risk` (risk_scorer.py lines 71-82):
penalty `min(20 * count, 50)` plus one "data_mismatch" factor per mismatch. -/
def mismatchComponent (mismatches : List Mismatch) : Int × List RiskFactor :=
  if mismatches.isEmpty then (0, [])
  else
    (min (20 * (mismatches.length : Int)) 50,
     mismatches.map (fun m =>
       ⟨"data_mismatch", "high",
        "Form: \x27" ++ m.form_value ++ "\x27 vs Document: \x27" ++ m.document_value ++ "\x27",
        some m.fieldName⟩))

/-- Quality-anomaly component of `_rule_based_risk` (lines 84-98). -/
def qualityComponent (qualityScore : Int) : Int × List RiskFactor :=
  if qualityScore ≥ 98 then
    (10, [⟨"quality_anomaly", "medium",
      "Unusually high quality score (" ++ toString qualityScore
        ++ "/100) — possible digital copy or screenshot", none⟩])
  else if qualityScore < 30 then
    (15, [⟨"low_quality", "medium",
      "Very low quality (" ++ toString qualityScore
        ++ "/100) — document may be intentionally obscured", none⟩])
  else (0, [])

/-- Country-specific critical field list (`critical_fields_by_country.get(c, ["name"])`). -/
def criticalFields (countryCode : String) : List String :=
  if countryCode = "PK" then ["cnic_number", "name_english", "name"]
  else if countryCode = "IN" then ["aadhaar_number", "name"]
  else if countryCode = "GB" then ["surname", "given_names", "passport_number", "license_number"]
  else ["name"]

/-- Python missing test `not ocr_data.get(f) or str(ocr_data.get(f, "")).lower()
in ("null", "none", "")` on a string-valued dict. -/
def isMissingField (v : Option String) : Bool :=
  match v with
  | none => true
  | some s => s = "" ∨ pyLower s = "null" ∨ pyLower s = "none"

/-- Missing-critical-fields component of `_rule_based_risk` (lines 100-118);
skipped entirely when `ocr_data` is empty (falsy). -/
def missingComponent (ocrData : List (String × String)) (countryCode : String) :
    Int × List RiskFactor :=
  if ocrData.isEmpty then (0, [])
  else
    let missing := (criticalFields countryCode).filter (fun f => isMissingField (aGet ocrData f))
    if missing.isEmpty then (0, [])
    else
      (8 * (missing.length : Int),
       [⟨"missing_fields", "medium",
         "Could not extract: " ++ joinSep ", " missing, none⟩])

/-- Expiry component of `_rule_based_risk` (lines 120-139): the first format
that parses decides; a past date adds 30 and one "expired_document" factor. -/
def expiryComponent (ocrData : List (String × String)) (today : PDate) :
    Int × List RiskFactor :=
  let expiry :=
    if ocrData.isEmpty then ""
    else orTruthy (aGet ocrData "expiry_date") (aGetD ocrData "expiration_date" "")
  if expiry = "" then (0, [])
  else
    match parseExpiry expiry with
    | some d =>
      if PDate.lt d today then
        (30, [⟨"expired_document", "high", "Document expired on " ++ expiry, none⟩])
      else (0, [])
    | none => (0, [])

/-- Python `s.replace(" ", "")` followed by taking the set of characters;
the set is modelled as the deduplicated character list. -/
def charSet (s : String) : List Char :=
  (s.toList.filter (fun c => c ≠ ' ')).dedup

/-- Name-consistency component of `_rule_based_risk` (lines 141-164).  The
float comparisons `overlap < 0.4` and `overlap < 0.7`, with
`overlap = |A ∩ B| / max |A| |B|`, are modelled exactly as the rational
inequalities `5*|A ∩ B| < 2*max` and `10*|A ∩ B| < 7*max` (for the set sizes
reachable from strings the double rounding of the quotient never crosses
these thresholds). -/
def nameComponent (ocrData formData : List (String × String)) : Int × List RiskFactor :=
  let formName := pyLower (pyTrim
    (orTruthy (aGet formData "full_name")
      (aGetD formData "first_name" "" ++ " " ++ aGetD formData "last_name" "")))
  let ocrName :=
    if ocrData.isEmpty then ""
    else pyLower (pyTrim
      (orTruthy (aGet ocrData "name")
        (orTruthy (aGet ocrData "name_english")
          (aGetD ocrData "given_names" "" ++ " " ++ aGetD ocrData "surname" ""))))
  if formName ≠ "" ∧ ocrName ≠ "" ∧ formName ≠ "none" ∧ ocrName ≠ "none" then
    let formChars := charSet formName
    let ocrChars := charSet ocrName
    if ¬ formChars.isEmpty ∧ ¬ ocrChars.isEmpty then
      let inter := (formChars.filter (fun c => c ∈ ocrChars)).length
      let denom := max formChars.length ocrChars.length
      if 5 * inter < 2 * denom then
        (25, [⟨"name_inconsistency", "high",
          "Low name similarity: \x27" ++ formName ++ "\x27 vs \x27" ++ ocrName ++ "\x27", none⟩])
      else if 10 * inter < 7 * denom then
        (10, [⟨"name_variation", "medium",
          "Name partially matches — possible transliteration", none⟩])
      else (0, [])
    else (0, [])
  else (0, [])

/-- Band selection shared verbatim by `_rule_based_risk` (lines 170-178) and the
AI merge in `assess_risk` (lines 340-348): at 60 the level is HIGH with REJECT
from 80, at 30 MEDIUM with MANUAL_REVIEW, below LOW with AUTO_APPROVE. -/
def scoreBand (score : Int) : RiskLevel × Recommendation :=
  if score ≥ 60 then
    (RiskLevel.high, if score ≥ 80 then Recommendation.reject else Recommendation.manual_review)
  else if score ≥ 30 then (RiskLevel.medium, Recommendation.manual_review)
  else (RiskLevel.low, Recommendation.auto_approve)

/-- Rule-based risk scoring, translated from `_rule_based_risk`
(risk_scorer.py lines 57-187).  The sequential accumulation of the Python code
is the sum of the independent components in source order; the final score is
clamped with `min(risk_score, 100)`.  `today` stands for `date.today()`. -/
def ruleBasedRisk (ocrData formData : List (String × String)) (qualityScore : Int)
    (mismatches : List Mismatch) (countryCode : String) (today : PDate) : RiskAssessment :=
  let c1 := mismatchComponent mismatches
  let c2 := qualityComponent qualityScore
  let c3 := missingComponent ocrData countryCode
  let c4 := expiryComponent ocrData today
  let c5 := nameComponent ocrData formData
  let riskScore := min (c1.1 + c2.1 + c3.1 + c4.1 + c5.1) 100
  let factors := c1.2 ++ c2.2 ++ c3.2 ++ c4.2 ++ c5.2
  let band := scoreBand riskScore
  { risk_level := band.1
    risk_score := riskScore
    risk_factors := factors
    recommendation := band.2
    reasoning := "Rule-based assessment: " ++ toString factors.length ++ " risk factors identified"
    ai_generated := false }

/-- Public entry `assess_risk` (risk_scorer.py lines 283-359).  The AI second
opinion is an external network call; its outcome is modelled by the parameter
`aiResult` (`none` when Gemini is unavailable or fails — the code then keeps
the rule-based result).  When enabled and available, the merge keeps the
maximum of the two scores, re-clamps, unions factors deduplicating by factor
kind, and recomputes the band from the merged score. -/
def assessRisk (ocrData formData : List (String × String)) (qualityScore : Int)
    (mismatches : List Mismatch) (countryCode : String) (today : PDate)
    (useAi : Bool) (aiResult : Option RiskAssessment) : RiskAssessment :=
  let ruleResult := ruleBasedRisk ocrData formData qualityScore mismatches countryCode today
  match useAi, aiResult with
  | true, some ai =>
    let combinedFactors := ruleResult.risk_factors ++
      ai.risk_factors.filter (fun f =>
        ¬ ruleResult.risk_factors.any (fun rf => rf.factor = f.factor))
    let finalScore := min (max ruleResult.risk_score ai.risk_score) 100
    let band := scoreBand finalScore
    { risk_level := band.1
      risk_score := finalScore
      risk_factors := combinedFactors
      recommendation := band.2
      reasoning := ai.reasoning
      ai_generated := true }
  | _, _ => ruleResult

/-- Specification-side band table, copied from the claim text: score≥80 gives
HIGH, 60≤score<80 gives HIGH, 30≤score<60 gives MEDIUM, score<30 gives LOW. -/
def levelOfScore (s : Int) : RiskLevel :=
  if 80 ≤ s then RiskLevel.high
  else if 60 ≤ s then RiskLevel.high
  else if 30 ≤ s then RiskLevel.medium
  else RiskLevel.low

/-- Specification-side recommendation table from the claim text: score≥80 gives
REJECT, 60≤score<80 and 30≤score<60 give MANUAL_REVIEW, score<30 AUTO_APPROVE. -/
def recOfScore (s : Int) : Recommendation :=
  if 80 ≤ s then Recommendation.reject
  else if 60 ≤ s then Recommendation.manual_review
  else if 30 ≤ s then Recommendation.manual_review
  else Recommendation.auto_approve

/-! ### Usage/Retry Governor — backend/usage_tracker.py -/

/-- API usage warning levels, per `UsageLevel`. -/
inductive UsageLevel where
  | green
  | yellow
  | red
  | blocked
deriving DecidableEq, Repr

/-- Retry bookkeeping for one (document_type, side) key, per `FieldRetryInfo`.
The wall-clock `last_attempt` timestamp is not modelled. -/
structure FieldRetryInfo where
  field_id : String
  document_type : String
  side : String
  attempts : Nat
  max_attempts : Nat
deriving DecidableEq, Repr

/-- Python property `FieldRetryInfo.can_retry`. -/
def FieldRetryInfo.can_retry (i : FieldRetryInfo) : Bool :=
  i.attempts < i.max_attempts

/-- Python property `FieldRetryInfo.remaining_attempts` (`max(0, max - attempts)`,
which is exactly truncated subtraction on naturals). -/
def FieldRetryInfo.remaining_attempts (i : FieldRetryInfo) : Nat :=
  i.max_attempts - i.attempts

/-- Governor state, per `UsageStats`.  The `session_start`/`last_call`
timestamps are wall-clock only and are not modelled; the thresholds
WARNING=50, CRITICAL=80, DAILY_LIMIT=100 are the class constants. -/
structure UsageStats where
  total_calls : Nat
  field_retries : List (String × FieldRetryInfo)
deriving DecidableEq, Repr

/-- Lookup in the per-field retry map (`self._stats.field_retries.get(key)`). -/
def retryLookup (l : List (String × FieldRetryInfo)) (k : String) : Option FieldRetryInfo :=
  (l.find? (fun p => p.1 = k)).map (fun p => p.2)

/-- Store into the per-field retry map (`self._stats.field_retries[key] = info`,
or the in-place mutation of the stored record). -/
def retryStore (l : List (String × FieldRetryInfo)) (k : String) (v : FieldRetryInfo) :
    List (String × FieldRetryInfo) :=
  match l with
  | [] => [(k, v)]
  | p :: rest => if p.1 = k then (k, v) :: rest else p :: retryStore rest k v

/-- Python property `UsageStats.usage_level` (usage_tracker.py lines 59-69). -/
def usageLevel (s : UsageStats) : UsageLevel :=
  if s.total_calls ≥ 100 then UsageLevel.blocked
  else if s.total_calls ≥ 80 then UsageLevel.red
  else if s.total_calls ≥ 50 then UsageLevel.yellow
  else UsageLevel.green

/-- Python property `UsageStats.remaining_calls` (`max(0, 100 - total)`). -/
def remainingCalls (s : UsageStats) : Nat :=
  100 - s.total_calls

/-- Python property `UsageTracker.can_make_call`. -/
def canMakeCall (s : UsageStats) : Bool :=
  usageLevel s ≠ UsageLevel.blocked

/-- `UsageTracker.record_call` (lines 117-136), as explicit state passing:
returns the (success, message) pair and the updated state. -/
def recordCall (s : UsageStats) : (Bool × String) × UsageStats :=
  if ¬ canMakeCall s then
    ((false, "API limit reached. Please try again tomorrow."), s)
  else
    let s1 : UsageStats := { s with total_calls := s.total_calls + 1 }
    match usageLevel s1 with
    | UsageLevel.red =>
      ((true, "Warning: " ++ toString (remainingCalls s1) ++ " API calls remaining today"), s1)
    | UsageLevel.yellow =>
      ((true, "Note: " ++ toString (remainingCalls s1) ++ " API calls remaining"), s1)
    | _ => ((true, ""), s1)

/-- `UsageTracker.get_field_key`. -/
def getFieldKey (documentType side : String) : String :=
  documentType ++ "_" ++ side

/-- `UsageTracker.record_field_attempt` (lines 158-189).  A fresh key is first
inserted with 0 attempts; a key whose holder can no longer retry is refused
without incrementing; otherwise the attempt counter is incremented and the
message reports the remaining budget. -/
def recordFieldAttempt (documentType side : String) (s : UsageStats) :
    (Bool × String) × UsageStats :=
  let key := getFieldKey documentType side
  let infoAndState : FieldRetryInfo × UsageStats :=
    match retryLookup s.field_retries key with
    | some i => (i, s)
    | none =>
      let i : FieldRetryInfo := ⟨key, documentType, side, 0, 2⟩
      (i, { s with field_retries := retryStore s.field_retries key i })
  let info := infoAndState.1
  let s1 := infoAndState.2
  if ¬ info.can_retry then
    ((false, "Maximum retries (" ++ toString info.max_attempts
        ++ ") reached for this document. Please contact support."), s1)
  else
    let info1 : FieldRetryInfo := { info with attempts := info.attempts + 1 }
    let s2 : UsageStats := { s1 with field_retries := retryStore s1.field_retries key info1 }
    let remaining := info1.remaining_attempts
    if remaining = 0 then ((true, "This was your last attempt for this document."), s2)
    else if remaining = 1 then ((true, "1 retry remaining for this document."), s2)
    else ((true, ""), s2)

/-! ### Issue Engine — kyc-agent/backend/issue_detector.py -/

/-- Issue severity tiers, per `IssueSeverity` in config/document_schema.py. -/
inductive IssueSeverity where
  | blocking
  | warning
  | info
deriving DecidableEq, Repr

/-- The closed set of issue kinds, per `IssueType` in config/document_schema.py. -/
inductive IssueType where
  | missing_back
  | missing_date
  | blurry
  | wrong_document
  | expired
  | corners_cut
  | glare
  | too_dark
  | too_bright
  | photo_missing
  | text_unreadable
  | rotated
  | low_resolution
  | wrong_format
  | obstructed
deriving DecidableEq, Repr

/-- One detected issue, per the `DetectedIssue` pydantic model. -/
structure DetectedIssue where
  issue_type : IssueType
  severity : IssueSeverity
  description : String
  affected_area : Option String := none
  suggestion : Option String := none
deriving DecidableEq, Repr

/-- The `severity_order` table of `prioritize_issues` (lines 423-427); the
Python `.get(severity, 3)` default is unreachable because the enum is closed. -/
def severityOrder (s : IssueSeverity) : Nat :=
  match s with
  | IssueSeverity.blocking => 0
  | IssueSeverity.warning => 1
  | IssueSeverity.info => 2

/-- Comparator fed to the stable sort in `prioritize_issues` (Python
`sorted(key=lambda x: severity_order[x.severity])`, which is a stable sort by
that key). -/
def leIssue (a b : DetectedIssue) : Bool :=
  severityOrder a.severity ≤ severityOrder b.severity

/-- First-occurrence deduplication by `issue_type` of `prioritize_issues`
(lines 414-420), with the `seen_types` set carried as an accumulator. -/
def dedupeByType (issues : List DetectedIssue) (seen : List IssueType) : List DetectedIssue :=
  match issues with
  | [] => []
  | i :: rest =>
    if i.issue_type ∈ seen then dedupeByType rest seen
    else i :: dedupeByType rest (i.issue_type :: seen)

/-- `prioritize_issues` (issue_detector.py lines 401-435): empty in, empty out;
otherwise dedupe by kind, stably sort by severity rank, keep the first 3. -/
def prioritizeIssues (issues : List DetectedIssue) : List DetectedIssue :=
  if issues.isEmpty then []
  else ((dedupeByType issues []).mergeSort leIssue).take 3

/-- The `penalties` table of `calculate_issue_score` (lines 494-498); the
`.get(severity, 0)` default is unreachable because the enum is closed. -/
def penaltyOf (s : IssueSeverity) : Int :=
  match s with
  | IssueSeverity.blocking => 30
  | IssueSeverity.warning => 10
  | IssueSeverity.info => 2

/-- `calculate_issue_score` (issue_detector.py lines 479-507).  The Python
function returns a float whose value is always integral; it is modelled on
the integers. -/
def calculateIssueScore (issues : List DetectedIssue) : Int :=
  if issues.isEmpty then 100
  else
    let totalPenalty := (issues.map (fun i => penaltyOf i.severity)).sum
    max 0 (100 - totalPenalty)

/-! ### Submission State Machine — kyc-agent/backend/deriv_api.py -/

/-- Document submission status, per `DerivStatus`. -/
inductive DerivStatus where
  | pending
  | accepted
  | rejected
  | needs_review
deriving DecidableEq, Repr

/-- The `.value` string of a `DerivStatus` member. -/
def DerivStatus.value (s : DerivStatus) : String :=
  match s with
  | DerivStatus.pending => "pending"
  | DerivStatus.accepted => "accepted"
  | DerivStatus.rejected => "rejected"
  | DerivStatus.needs_review => "needs_review"

/-- Internal record of a document submission, per the `SubmissionRecord`
pydantic model (deriv_api.py lines 46-63).  The wall-clock `timestamp` is not
modelled. -/
structure SubmissionRecord where
  document_id : String
  document_type : String
  side : String
  country_code : String
  status : DerivStatus
  quality_score : Int
  risk_level : String
  risk_score : Int
  risk_factors : List RiskFactor
  form_data : List (String × String)
  ocr_data : List (String × String)
  mismatches : List Mismatch
  message : String
  reviewer_action : Option String := none
  reviewer_notes : String := ""
deriving DecidableEq, Repr

/-- The `status_map` lookup of `prepare_and_submit` (lines 375-381):
`status_map.get(status_str, DerivStatus.PENDING)`. -/
def statusMap (statusStr : String) : DerivStatus :=
  if statusStr = "accepted" then DerivStatus.accepted
  else if statusStr = "rejected" then DerivStatus.rejected
  else if statusStr = "needs_review" then DerivStatus.needs_review
  else if statusStr = "pending" then DerivStatus.pending
  else DerivStatus.pending

/-- The `messages` table of `prepare_and_submit` (lines 388-393); the
`.get(status, "Submitted")` default is unreachable, every member has an entry. -/
def messageFor (s : DerivStatus) : String :=
  match s with
  | DerivStatus.accepted => "Document accepted for verification"
  | DerivStatus.needs_review => "Document flagged for manual compliance review"
  | DerivStatus.rejected => "Document rejected — please resubmit with better quality"
  | DerivStatus.pending => "Document submitted, awaiting processing"

/-- Status string chosen by `_mock_document_upload_response` (lines 255-270)
from the issue score: at 80 "accepted", at 50 "needs_review", else "rejected". -/
def mockUploadStatus (issueScore : Int) : String :=
  if issueScore ≥ 80 then "accepted"
  else if issueScore ≥ 50 then "needs_review"
  else "rejected"

/-- Result dictionary returned by `prepare_and_submit` (lines 413-421).  The
`used_real_api` / raw `deriv_response` passthrough entries belong to the
abstracted endpoint interaction and are not modelled. -/
structure SubmitResult where
  success : Bool
  document_id : String
  status : String
  message : String
  can_proceed : Bool
deriving DecidableEq, Repr

/-- `DerivSubmissionManager.prepare_and_submit` (deriv_api.py lines 313-421),
from the point where the endpoint outcome is known.  The real-or-mock endpoint
interaction is abstracted into the two parameters `docId` (the generated or
endpoint-assigned document id) and `reportedStatus` (the `status` string of
the endpoint response; the mock reports `mockUploadStatus issueScore`).  The
manager state is the submission history, passed and returned explicitly. -/
def prepareAndSubmit (hist : List SubmissionRecord) (docId reportedStatus : String)
    (documentType side countryCode : String) (issueScore : Int)
    (formData ocrData : List (String × String)) (mismatches : List Mismatch)
    (riskLevel : String) (riskScore : Int) (riskFactors : List RiskFactor) :
    SubmitResult × List SubmissionRecord :=
  let status0 := statusMap reportedStatus
  let status := if ¬ mismatches.isEmpty then DerivStatus.needs_review else status0
  let record : SubmissionRecord :=
    { document_id := docId
      document_type := documentType
      side := side
      country_code := countryCode
      status := status
      quality_score := issueScore
      risk_level := riskLevel
      risk_score := riskScore
      risk_factors := riskFactors
      form_data := formData
      ocr_data := ocrData
      mismatches := mismatches
      message := messageFor status }
  ({ success := status ≠ DerivStatus.rejected
     document_id := docId
     status := status.value
     message := record.message
     can_proceed := status = DerivStatus.accepted ∨ status = DerivStatus.needs_review },
   hist ++ [record])

/-- Result of a status lookup, per the two dictionary shapes returned by
`get_submission_status` (lines 423-433). -/
structure StatusLookup where
  found : Bool
  status : Option String := none
  message : Option String := none
  quality_score : Option Int := none
  error : Option String := none
deriving DecidableEq, Repr

/-- `DerivSubmissionManager.get_submission_status`: first record in history
order whose id matches wins. -/
def getSubmissionStatus (hist : List SubmissionRecord) (documentId : String) : StatusLookup :=
  match hist.find? (fun r => r.document_id = documentId) with
  | some r =>
    { found := true
      status := some r.status.value
      message := some r.message
      quality_score := some r.quality_score }
  | none =>
    { found := false
      error := some ("Document " ++ documentId ++ " not found") }

/-- The mutation applied by `review_submission` to the matched record
(lines 456-462): stamp the action and notes, and move the status for the two
recognized actions; any other action leaves the status untouched. -/
def applyReview (r : SubmissionRecord) (action notes : String) : SubmissionRecord :=
  { r with
    reviewer_action := some action
    reviewer_notes := notes
    status :=
      if action = "approve" then DerivStatus.accepted
      else if action = "reject" then DerivStatus.rejected
      else r.status }

/-- `DerivSubmissionManager.review_submission` (deriv_api.py lines 453-464):
the first record with the given id is updated in place and `True` is returned;
without a match the history is untouched and `False` is returned. -/
def reviewSubmission (hist : List SubmissionRecord) (documentId action notes : String) :
    Bool × List SubmissionRecord :=
  match hist with
  | [] => (false, [])
  | r :: rest =>
    if r.document_id = documentId then
      (true, applyReview r action notes :: rest)
    else
      let res := reviewSubmission rest documentId action notes
      (res.1, r :: res.2)

/-! ### Resilient response parsing — kyc-agent/backend/vision_analyzer.py

The vision response is untrusted free text.  `_parse_response` feeds slices of
it to Python `json.loads`; the decoder is modelled below by an executable JSON
reader over the character list.  Number tokens are kept as their lexemes (the
pipeline never computes with parsed numbers), and the non-standard
`NaN`/`Infinity`/`-Infinity` constants that the Python decoder accepts by
default are kept as number lexemes too.  The decoder distinguishes its two
exception classes: `JSONDecodeError` on malformed input, and `RecursionError`
once container nesting exhausts the interpreter recursion headroom — the
headroom (`sys.getrecursionlimit()` minus the live stack depth, an
environment-dependent quantity) is an explicit `depthLimit` parameter. -/

/-- The two ways Python `json.loads` fails: `decode` is `json.JSONDecodeError`,
`recursion` is the `RecursionError` raised when container nesting exhausts the
interpreter recursion headroom.  Only the former is caught by the
`except json.JSONDecodeError` arm of `_parse_response`. -/
inductive JsonFail where
  | decode
  | recursion
deriving DecidableEq, Repr

/-- JSON values, as produced by the model of `json.loads`. -/
inductive JVal where
  | null : JVal
  | bool : Bool → JVal
  | num : String → JVal
  | str : String → JVal
  | arr : List JVal → JVal
  | obj : List (String × JVal) → JVal

/-- Whether a JSON value is an object (a Python dict after `json.loads`). -/
def JVal.isObj (v : JVal) : Bool :=
  match v with
  | JVal.obj _ => true
  | _ => false

/-- Key lookup on a JSON object (Python `d[k]` on the decoded dict). -/
def jvalGet (v : JVal) (k : String) : Option JVal :=
  match v with
  | JVal.obj kvs => (kvs.find? (fun p => p.1 = k)).map (fun p => p.2)
  | _ => none

/-- JSON insignificant whitespace (the four characters accepted by the Python
decoder between tokens). -/
def jws (cs : List Char) : List Char :=
  cs.dropWhile (fun c => c = ' ' ∨ c = '\t' ∨ c = '\n' ∨ c = '\r')

/-- Hex digit value, for `\uXXXX` string escapes. -/
def hexVal (c : Char) : Option Nat :=
  if '0' ≤ c ∧ c ≤ '9' then some (c.toNat - 48)
  else if 'a' ≤ c ∧ c ≤ 'f' then some (c.toNat - 87)
  else if 'A' ≤ c ∧ c ≤ 'F' then some (c.toNat - 55)
  else none

/-- Character for a decoded code point.  Python strings carry lone surrogates
verbatim; Lean `Char` holds only scalar values, so a lone surrogate (the one
code-point range `Char` cannot represent) is carried by the U+FFFD stand-in —
the routing between success and failure is unaffected, only the carried
character differs. -/
def charOfCodePoint (n : Nat) : Char :=
  if h : n.isValidChar then Char.ofNatAux n h else '\uFFFD'

/-- Body of a JSON string after the opening quote: accumulates the decoded
characters until the closing quote.  Per the strict-mode decoder: raw control
characters (code points below 0x20) inside a string are a decode error; every
`\uXXXX` escape with four hex digits is accepted, a high surrogate followed by
a `\uXXXX` low surrogate combines into the astral code point, and an unpaired
surrogate stays lone (carried by the `charOfCodePoint` stand-in).  The fuel
only guarantees termination: every step consumes at least one character, so a
fuel exceeding the input length never cuts a scan short. -/
def jstrAux (fuel : Nat) (cs : List Char) (acc : List Char) : Option (String × List Char) :=
  match fuel with
  | 0 => none
  | fuel + 1 =>
  match cs with
  | [] => none
  | '"' :: rest => some (String.mk acc.reverse, rest)
  | '\\' :: rest =>
    match rest with
    | '"' :: r => jstrAux fuel r ('"' :: acc)
    | '\\' :: r => jstrAux fuel r ('\\' :: acc)
    | '/' :: r => jstrAux fuel r ('/' :: acc)
    | 'b' :: r => jstrAux fuel r ('\x08' :: acc)
    | 'f' :: r => jstrAux fuel r ('\x0c' :: acc)
    | 'n' :: r => jstrAux fuel r ('\n' :: acc)
    | 'r' :: r => jstrAux fuel r ('\r' :: acc)
    | 't' :: r => jstrAux fuel r ('\t' :: acc)
    | 'u' :: h1 :: h2 :: h3 :: h4 :: r =>
      match hexVal h1, hexVal h2, hexVal h3, hexVal h4 with
      | some a, some b, some c, some d =>
        let n := ((a * 16 + b) * 16 + c) * 16 + d
        if 0xD800 ≤ n ∧ n ≤ 0xDBFF then
          match r with
          | '\\' :: 'u' :: g1 :: g2 :: g3 :: g4 :: r2 =>
            match hexVal g1, hexVal g2, hexVal g3, hexVal g4 with
            | some e1, some e2, some e3, some e4 =>
              let m := ((e1 * 16 + e2) * 16 + e3) * 16 + e4
              if 0xDC00 ≤ m ∧ m ≤ 0xDFFF then
                jstrAux fuel r2
                  (charOfCodePoint (0x10000 + (n - 0xD800) * 0x400 + (m - 0xDC00)) :: acc)
              else jstrAux fuel r (charOfCodePoint n :: acc)
            | _, _, _, _ => jstrAux fuel r (charOfCodePoint n :: acc)
          | _ => jstrAux fuel r (charOfCodePoint n :: acc)
        else jstrAux fuel r (charOfCodePoint n :: acc)
      | _, _, _, _ => none
    | _ => none
  | c :: rest => if c.toNat < 0x20 then none else jstrAux fuel rest (c :: acc)

/-- Fractional part of a number token: `.` followed by at least one digit, or
nothing (the decoder regex leaves a bare dot to the caller). -/
def grabFrac (cs : List Char) : List Char × List Char :=
  match cs with
  | '.' :: r =>
    let ds := r.takeWhile (fun c => c.isDigit)
    if ds.isEmpty then ([], cs) else ('.' :: ds, r.dropWhile (fun c => c.isDigit))
  | _ => ([], cs)

/-- Exponent part of a number token: `e`/`E`, optional sign, at least one
digit, or nothing. -/
def grabExp (cs : List Char) : List Char × List Char :=
  match cs with
  | e :: r =>
    if e = 'e' ∨ e = 'E' then
      let signAndRest : List Char × List Char :=
        match r with
        | s :: r2 => if s = '+' ∨ s = '-' then ([s], r2) else ([], r)
        | [] => ([], r)
      let ds := signAndRest.2.takeWhile (fun c => c.isDigit)
      if ds.isEmpty then ([], cs)
      else (e :: (signAndRest.1 ++ ds), signAndRest.2.dropWhile (fun c => c.isDigit))
    else ([], cs)
  | [] => ([], cs)

/-- JSON number token per the decoder regex `-?(0|[1-9]\d*)(\.\d+)?([eE][-+]?\d+)?`;
returns the lexeme and the remaining input. -/
def parseJNum (cs : List Char) : Option (String × List Char) :=
  let signAndRest : List Char × List Char :=
    match cs with
    | '-' :: r => (['-'], r)
    | _ => ([], cs)
  match signAndRest.2 with
  | c :: r =>
    if c = '0' then
      let fr := grabFrac r
      let ex := grabExp fr.2
      some (String.mk (signAndRest.1 ++ ['0'] ++ fr.1 ++ ex.1), ex.2)
    else if c.isDigit then
      let ds := r.takeWhile (fun d => d.isDigit)
      let r1 := r.dropWhile (fun d => d.isDigit)
      let fr := grabFrac r1
      let ex := grabExp fr.2
      some (String.mk (signAndRest.1 ++ (c :: ds) ++ fr.1 ++ ex.1), ex.2)
    else none
  | [] => none

mutual

/-- One JSON value starting at the head of the input (after whitespace).
`fuel` only guarantees termination (it exceeds the input length, which bounds
every possible nesting, so it never cuts a parse short); `depth` is the
remaining interpreter recursion headroom, spent one level per container
entered: entering a container with no headroom left is the `RecursionError`
of the Python decoder. -/
def parseJVal (fuel depth : Nat) (cs : List Char) : Except JsonFail (JVal × List Char) :=
  match fuel with
  | 0 => Except.error JsonFail.decode
  | fuel + 1 =>
    let cs := jws cs
    match cs with
    | '{' :: r =>
      match depth with
      | 0 => Except.error JsonFail.recursion
      | depth + 1 =>
        let r1 := jws r
        match r1 with
        | '}' :: r2 => Except.ok (JVal.obj [], r2)
        | _ => (parseJMembers fuel depth r1).map (fun p => (JVal.obj p.1, p.2))
    | '[' :: r =>
      match depth with
      | 0 => Except.error JsonFail.recursion
      | depth + 1 =>
        let r1 := jws r
        match r1 with
        | ']' :: r2 => Except.ok (JVal.arr [], r2)
        | _ => (parseJElems fuel depth r1).map (fun p => (JVal.arr p.1, p.2))
    | '"' :: r =>
      match jstrAux (r.length + 1) r [] with
      | some p => Except.ok (JVal.str p.1, p.2)
      | none => Except.error JsonFail.decode
    | 't' :: 'r' :: 'u' :: 'e' :: r => Except.ok (JVal.bool true, r)
    | 'f' :: 'a' :: 'l' :: 's' :: 'e' :: r => Except.ok (JVal.bool false, r)
    | 'n' :: 'u' :: 'l' :: 'l' :: r => Except.ok (JVal.null, r)
    | 'N' :: 'a' :: 'N' :: r => Except.ok (JVal.num "NaN", r)
    | 'I' :: 'n' :: 'f' :: 'i' :: 'n' :: 'i' :: 't' :: 'y' :: r =>
      Except.ok (JVal.num "Infinity", r)
    | '-' :: 'I' :: 'n' :: 'f' :: 'i' :: 'n' :: 'i' :: 't' :: 'y' :: r =>
      Except.ok (JVal.num "-Infinity", r)
    | _ =>
      match parseJNum cs with
      | some p => Except.ok (JVal.num p.1, p.2)
      | none => Except.error JsonFail.decode

/-- Members of an object after the opening brace (first key expected). -/
def parseJMembers (fuel depth : Nat) (cs : List Char) :
    Except JsonFail (List (String × JVal) × List Char) :=
  match fuel with
  | 0 => Except.error JsonFail.decode
  | fuel + 1 =>
    match jws cs with
    | '"' :: r =>
      match jstrAux (r.length + 1) r [] with
      | some (key, r1) =>
        match jws r1 with
        | ':' :: r2 =>
          match parseJVal fuel depth r2 with
          | Except.ok (v, r3) =>
            match jws r3 with
            | ',' :: r4 =>
              (parseJMembers fuel depth r4).map (fun p => ((key, v) :: p.1, p.2))
            | '}' :: r4 => Except.ok ([(key, v)], r4)
            | _ => Except.error JsonFail.decode
          | Except.error e => Except.error e
        | _ => Except.error JsonFail.decode
      | none => Except.error JsonFail.decode
    | _ => Except.error JsonFail.decode

/-- Elements of an array after the opening bracket (first element expected). -/
def parseJElems (fuel depth : Nat) (cs : List Char) :
    Except JsonFail (List JVal × List Char) :=
  match fuel with
  | 0 => Except.error JsonFail.decode
  | fuel + 1 =>
    match parseJVal fuel depth cs with
    | Except.ok (v, r) =>
      match jws r with
      | ',' :: r1 => (parseJElems fuel depth r1).map (fun p => (v :: p.1, p.2))
      | ']' :: r1 => Except.ok ([v], r1)
      | _ => Except.error JsonFail.decode
    | Except.error e => Except.error e

end

/-- Model of Python `json.loads`: decode one value and require only whitespace
after it.  `depthLimit` is the interpreter recursion headroom available to the
decoder (environment-dependent in CPython, hence a parameter); the structural
fuel `length + 2` exceeds any nesting the input can express and never cuts a
parse short. -/
def jsonLoads (depthLimit : Nat) (s : String) : Except JsonFail JVal :=
  match parseJVal (s.length + 2) depthLimit s.toList with
  | Except.ok (v, rest) =>
    if (jws rest).isEmpty then Except.ok v else Except.error JsonFail.decode
  | Except.error e => Except.error e

/-- Markdown fence stripping of `_parse_response` (vision_analyzer.py lines
310-318 and 336-342, identical in both passes): when the text starts with
three backticks, drop the first line and a final line that trims to a fence. -/
def stripFences (s : String) : String :=
  if startsWithTicks s then
    let lines := (splitOnChar '\n' s.toList).map String.mk
    let lines1 := if startsWithTicks (lines.headD "") then lines.drop 1 else lines
    let lines2 :=
      match lines1.getLast? with
      | some lastLine => if pyTrim lastLine = "```" then lines1.dropLast else lines1
      | none => lines1
    joinSep "\n" lines2
  else s

/-- Primary region extraction of `_parse_response` (lines 321-324): when both
braces occur, keep the slice from the first `\x7b` to the last `\x7d`. -/
def braceSlice (s : String) : String :=
  let cs := s.toList
  if cs.contains '{' ∧ cs.contains '}' then
    let start := cs.findIdx (fun c => c = '{')
    let stop := cs.length - 1 - cs.reverse.findIdx (fun c => c = '}')
    String.mk ((cs.drop start).take (stop + 1 - start))
  else s

/-- What the primary path hands to `json.loads`: strip, de-fence, brace-slice. -/
def primaryCandidate (s : String) : String :=
  braceSlice (stripFences (pyTrim s))

/-- The balanced-brace scanner of the recovery path (lines 346-368): walk the
text from the first brace, tracking brace depth outside of string literals
(with backslash escapes), and remember the last index where the depth returns
to zero.  `stack` is an integer because extra closing braces drive it
negative, exactly as in the Python code. -/
def lastBalancedAux (cs : List Char) (stack : Int) (inStr esc : Bool) (i : Nat)
    (acc : Option Nat) : Option Nat :=
  match cs with
  | [] => acc
  | c :: rest =>
    if inStr then
      if esc then lastBalancedAux rest stack true false (i + 1) acc
      else if c = '\\' then lastBalancedAux rest stack true true (i + 1) acc
      else if c = '"' then lastBalancedAux rest stack false false (i + 1) acc
      else lastBalancedAux rest stack true false (i + 1) acc
    else
      if c = '"' then lastBalancedAux rest stack true false (i + 1) acc
      else if c = '{' then lastBalancedAux rest (stack + 1) false false (i + 1) acc
      else if c = '}' then
        if stack - 1 = 0 then lastBalancedAux rest (stack - 1) false false (i + 1) (some i)
        else lastBalancedAux rest (stack - 1) false false (i + 1) acc
      else lastBalancedAux rest stack false false (i + 1) acc

/-- Candidate string of the recovery path (lines 331-374): only entered when
the raw response contains a brace; the raw text is stripped and de-fenced
again, and the slice from the first brace to the last balanced index is
reattempted.  `none` when no brace or no balanced prefix exists. -/
def recoveryCandidate (responseText : String) : Option String :=
  if responseText.toList.contains '{' then
    let text := stripFences (pyTrim responseText)
    let cs := text.toList
    if cs.contains '{' then
      let start := cs.findIdx (fun c => c = '{')
      match lastBalancedAux (cs.drop start) 0 false false start none with
      | some lastIdx => some (String.mk ((cs.drop start).take (lastIdx + 1 - start)))
      | none => none
    else none
  else none

/-- The default minimal quality/issue verdict returned when every parse fails
(lines 379-407), marked with `parse_error`.  The interpolated
`JSONDecodeError` text of the Python f-string is abstracted to the exception
class name; the raw-response echo keeps the 200-character cap. -/
def defaultVerdict (responseText : String) : JVal :=
  JVal.obj
    [("detected_document_type", JVal.str "unknown"),
     ("detected_side", JVal.str "unknown"),
     ("is_correct_document", JVal.bool false),
     ("document_visible", JVal.bool false),
     ("quality_assessment", JVal.obj
       [("is_readable", JVal.bool false),
        ("is_blurry", JVal.bool true),
        ("has_glare", JVal.bool false),
        ("is_too_dark", JVal.bool false),
        ("is_too_bright", JVal.bool false),
        ("all_corners_visible", JVal.bool false),
        ("is_rotated", JVal.bool false),
        ("has_obstructions", JVal.bool false)]),
     ("detected_elements", JVal.obj
       [("has_photo", JVal.bool false),
        ("has_name_field", JVal.bool false),
        ("has_id_number", JVal.bool false),
        ("has_date_of_birth", JVal.bool false),
        ("has_expiry_date", JVal.bool false),
        ("has_mrz_zone", JVal.bool false)]),
     ("issues_found", JVal.arr [JVal.str "Failed to analyze image: JSONDecodeError"]),
     ("confidence_score", JVal.num "0.0"),
     ("additional_notes", JVal.str ("Raw response: " ++ String.mk (responseText.toList.take 200))),
     ("parse_error", JVal.bool true)]

/-- `GeminiVisionAnalyzer._parse_response` (vision_analyzer.py lines 303-407),
with the Python exception flow explicit.  The `try` body decodes the cleaned
first-to-last-brace slice; its `except` arm catches only
`json.JSONDecodeError`, so a `RecursionError` from the primary decode
propagates to the caller (`Except.error "RecursionError"`).  On a decode
error, the balanced-brace recovery slice is reattempted inside
`try/except Exception`, which absorbs **every** failure of the second decode
(decode and recursion alike); failing that, the default verdict is returned.
`depthLimit` is the interpreter recursion headroom (environment-dependent in
CPython, hence a parameter). -/
def parseResponse (depthLimit : Nat) (responseText : String) : Except String JVal :=
  match jsonLoads depthLimit (primaryCandidate responseText) with
  | Except.ok v => Except.ok v
  | Except.error JsonFail.recursion => Except.error "RecursionError"
  | Except.error JsonFail.decode =>
    Except.ok
      (match recoveryCandidate responseText with
       | some candidate =>
         match jsonLoads depthLimit candidate with
         | Except.ok v => v
         | Except.error _ => defaultVerdict responseText
       | none => defaultVerdict responseText)

/-! ### Theorems -/

/-- The band fragment agrees with the four-band table of the specification. -/
theorem scoreBand_eq_spec (s : Int) : scoreBand s = (levelOfScore s, recOfScore s) := by
  unfold scoreBand levelOfScore recOfScore
  split_ifs <;> first | rfl | omega

/-- The rule-based level and recommendation are read off the band of the
rule-based score. -/
theorem ruleBasedRisk_level_rec (ocr form : List (String × String)) (q : Int)
    (ms : List Mismatch) (cc : String) (d : PDate) :
    (ruleBasedRisk ocr form q ms cc d).risk_level
        = levelOfScore (ruleBasedRisk ocr form q ms cc d).risk_score ∧
    (ruleBasedRisk ocr form q ms cc d).recommendation
        = recOfScore (ruleBasedRisk ocr form q ms cc d).risk_score := by
  simp [ruleBasedRisk, scoreBand_eq_spec]

/-- The rule-based score is clamped to at most 100. -/
theorem ruleBasedRisk_score_le (ocr form : List (String × String)) (q : Int)
    (ms : List Mismatch) (cc : String) (d : PDate) :
    (ruleBasedRisk ocr form q ms cc d).risk_score ≤ 100 := by
  simp only [ruleBasedRisk]
  exact min_le_right _ _

/-- C1: for every input to `assess_risk` (with or without the AI second
opinion), the returned risk_level and recommendation are determined purely by
the final risk_score via the four exact bands: score≥80 gives HIGH/REJECT,
60≤score<80 gives HIGH/MANUAL_REVIEW, 30≤score<60 gives MEDIUM/MANUAL_REVIEW,
and score<30 gives LOW/AUTO_APPROVE. -/
theorem c1_band_purity (ocr form : List (String × String)) (q : Int)
    (ms : List Mismatch) (cc : String) (d : PDate) (useAi : Bool)
    (aiR : Option RiskAssessment) :
    (assessRisk ocr form q ms cc d useAi aiR).risk_level
        = levelOfScore (assessRisk ocr form q ms cc d useAi aiR).risk_score ∧
    (assessRisk ocr form q ms cc d useAi aiR).recommendation
        = recOfScore (assessRisk ocr form q ms cc d useAi aiR).risk_score := by
  cases useAi with
  | false => exact ruleBasedRisk_level_rec ocr form q ms cc d
  | true =>
    cases aiR with
    | none => exact ruleBasedRisk_level_rec ocr form q ms cc d
    | some ai =>
      simp [assessRisk, scoreBand_eq_spec]

/-- C4: whenever the AI second opinion scores no higher than the rule-based
assessment, the merged result keeps the rule-based risk_score and
recommendation unchanged (the merge is a max, never an average). -/
theorem c4_low_ai_keeps_rule (ocr form : List (String × String)) (q : Int)
    (ms : List Mismatch) (cc : String) (d : PDate) (ai : RiskAssessment)
    (h : ai.risk_score ≤ (ruleBasedRisk ocr form q ms cc d).risk_score) :
    (assessRisk ocr form q ms cc d true (some ai)).risk_score
        = (ruleBasedRisk ocr form q ms cc d).risk_score ∧
    (assessRisk ocr form q ms cc d true (some ai)).recommendation
        = (ruleBasedRisk ocr form q ms cc d).recommendation := by
  have hmax : max (ruleBasedRisk ocr form q ms cc d).risk_score ai.risk_score
      = (ruleBasedRisk ocr form q ms cc d).risk_score := max_eq_left h
  have hmin : min (ruleBasedRisk ocr form q ms cc d).risk_score 100
      = (ruleBasedRisk ocr form q ms cc d).risk_score :=
    min_eq_left (ruleBasedRisk_score_le ocr form q ms cc d)
  constructor
  · simp only [assessRisk, hmax, hmin]
  · simp only [assessRisk, hmax, hmin, scoreBand_eq_spec]
    exact (ruleBasedRisk_level_rec ocr form q ms cc d).2.symm

/-- C4 witness: at a concrete input where the AI second opinion scores 0 and
the rule-based score is 0, the merged score and recommendation equal the
rule-based ones. -/
theorem c4_witness :
    (assessRisk [] [] 50 [] "PK" ⟨2026, 10, 12⟩ true
        (some ⟨RiskLevel.low, 0, [], Recommendation.auto_approve, "ai", true⟩)).risk_score
      = (ruleBasedRisk [] [] 50 [] "PK" ⟨2026, 10, 12⟩).risk_score ∧
    (assessRisk [] [] 50 [] "PK" ⟨2026, 10, 12⟩ true
        (some ⟨RiskLevel.low, 0, [], Recommendation.auto_approve, "ai", true⟩)).recommendation
      = (ruleBasedRisk [] [] 50 [] "PK" ⟨2026, 10, 12⟩).recommendation :=
  c4_low_ai_keeps_rule [] [] 50 [] "PK" ⟨2026, 10, 12⟩
    ⟨RiskLevel.low, 0, [], Recommendation.auto_approve, "ai", true⟩ (by decide)

/-- The Scenario-3 date-of-birth mismatch: extracted DOB "1985-12-01" against
form DOB "1985-01-12". -/
def scn3Mismatch : Mismatch :=
  ⟨"date_of_birth", "1985-01-12", "1985-12-01", "DOB mismatch — possible day/month swap"⟩

/-- C8 counterexample: with the single Scenario-3 DOB mismatch (and otherwise
neutral inputs), the rule-based risk_score is exactly 20, against 0 for the
same inputs without the mismatch — the data_mismatch factor is present but its
contribution is 20 = min(20·1, 50), not at least 25. -/
theorem c8_counterexample :
    (ruleBasedRisk [] [] 50 [scn3Mismatch] "AE" ⟨2026, 10, 12⟩).risk_score = 20 ∧
    (ruleBasedRisk [] [] 50 [] "AE" ⟨2026, 10, 12⟩).risk_score = 0 ∧
    (ruleBasedRisk [] [] 50 [scn3Mismatch] "AE" ⟨2026, 10, 12⟩).risk_factors.any
      (fun f => f.factor = "data_mismatch") = true ∧
    ¬ (25 ≤ (ruleBasedRisk [] [] 50 [scn3Mismatch] "AE" ⟨2026, 10, 12⟩).risk_score
          - (ruleBasedRisk [] [] 50 [] "AE" ⟨2026, 10, 12⟩).risk_score) := by
  refine ⟨rfl, rfl, rfl, ?_⟩
  decide

/-- C8 (amended): for every assessment over a mismatch list holding exactly the
Scenario-3 DOB mismatch, the rule-based assessment includes a data_mismatch
risk factor, and the mismatch penalty added to the raw score is exactly
20 = min(20·1, 50). -/
theorem c8_amended (ocr form : List (String × String)) (q : Int) (cc : String)
    (d : PDate) :
    (mismatchComponent [scn3Mismatch]).1 = 20 ∧
    (ruleBasedRisk ocr form q [scn3Mismatch] cc d).risk_factors.any
      (fun f => f.factor = "data_mismatch") = true := by
  refine ⟨rfl, ?_⟩
  simp only [ruleBasedRisk, List.any_append]
  have : (mismatchComponent [scn3Mismatch]).2.any (fun f => f.factor = "data_mismatch") = true := rfl
  simp [this]

/-- C5: the governor refuses exactly at its caps — at 100 recorded calls the
level is BLOCKED and `record_call` fails leaving the counter at 100, and for a
(document_type, side) key with 2 recorded attempts a third
`record_field_attempt` fails with the maximum-retries message without
incrementing anything. -/
theorem c5_governor_caps (s : UsageStats) (dt side : String) (info : FieldRetryInfo) :
    (s.total_calls = 100 →
      usageLevel s = UsageLevel.blocked ∧
      recordCall s = ((false, "API limit reached. Please try again tomorrow."), s)) ∧
    (retryLookup s.field_retries (getFieldKey dt side) = some info →
      info.attempts = 2 → info.max_attempts = 2 →
      recordFieldAttempt dt side s =
        ((false, "Maximum retries (2) reached for this document. Please contact support."), s)) := by
  constructor
  · intro h
    have hlvl : usageLevel s = UsageLevel.blocked := by simp [usageLevel, h]
    refine ⟨hlvl, ?_⟩
    simp [recordCall, canMakeCall, hlvl]
  · intro hl ha hm
    have hcr : info.can_retry = false := by
      simp [FieldRetryInfo.can_retry, ha, hm]
    simp [recordFieldAttempt, hl, hcr, hm]
    rfl

/-- A governor state at the call cap, with an exhausted cnic-front retry key. -/
def s100 : UsageStats :=
  ⟨100, [("cnic_front", ⟨"cnic_front", "cnic", "front", 2, 2⟩)]⟩

/-- C5 witness: the concrete state `s100` is BLOCKED, a further call is
refused without incrementing, and a third cnic-front attempt is refused with
the maximum-retries message. -/
theorem c5_witness :
    usageLevel s100 = UsageLevel.blocked ∧
    recordCall s100 = ((false, "API limit reached. Please try again tomorrow."), s100) ∧
    recordFieldAttempt "cnic" "front" s100 =
      ((false, "Maximum retries (2) reached for this document. Please contact support."), s100) := by
  have h := c5_governor_caps s100 "cnic" "front" ⟨"cnic_front", "cnic", "front", 2, 2⟩
  exact ⟨(h.1 rfl).1, (h.1 rfl).2, h.2 rfl rfl rfl⟩

/-- Specification-side penalty sum of the claim: 30 per BLOCKING, 10 per
WARNING, 2 per INFO issue. -/
def specPenalty (issues : List DetectedIssue) : Int :=
  30 * ((issues.filter (fun i => i.severity = IssueSeverity.blocking)).length : Int)
    + 10 * ((issues.filter (fun i => i.severity = IssueSeverity.warning)).length : Int)
    + 2 * ((issues.filter (fun i => i.severity = IssueSeverity.info)).length : Int)

/-- The per-issue penalty sum of the code equals the claim-side counting form. -/
theorem penaltySum_eq_spec (issues : List DetectedIssue) :
    (issues.map (fun i => penaltyOf i.severity)).sum = specPenalty issues := by
  induction issues with
  | nil => simp [specPenalty]
  | cons a l ih =>
    rcases ha : a.severity <;>
      simp [specPenalty, List.filter_cons, ha, penaltyOf] at ih ⊢ <;> omega

/-- Every single-issue penalty is nonnegative. -/
theorem penaltyOf_nonneg (s : IssueSeverity) : 0 ≤ penaltyOf s := by
  cases s <;> simp [penaltyOf]

/-- The claim-side penalty sum is nonnegative. -/
theorem specPenalty_nonneg (issues : List DetectedIssue) : 0 ≤ specPenalty issues := by
  unfold specPenalty
  positivity

/-- C6: `calculate_issue_score` returns `max 0 (100 - (30·BLOCKING + 10·WARNING
+ 2·INFO))` for every issue list, the empty list scores exactly 100, and
appending any issue never increases the score. -/
theorem c6_issue_score (issues : List DetectedIssue) (i : DetectedIssue) :
    calculateIssueScore issues = max 0 (100 - specPenalty issues) ∧
    calculateIssueScore [] = 100 ∧
    calculateIssueScore (issues ++ [i]) ≤ calculateIssueScore issues := by
  have hform : ∀ l : List DetectedIssue, calculateIssueScore l = max 0 (100 - specPenalty l) := by
    intro l
    cases l with
    | nil => simp [calculateIssueScore, specPenalty]
    | cons a t =>
      simp only [calculateIssueScore, penaltySum_eq_spec]
      simp
  refine ⟨hform issues, rfl, ?_⟩
  rw [hform issues, hform (issues ++ [i])]
  have hsplit : specPenalty (issues ++ [i]) = specPenalty issues + penaltyOf i.severity := by
    rw [← penaltySum_eq_spec, ← penaltySum_eq_spec, List.map_append, List.sum_append]
    simp [penaltySum_eq_spec]
  have hpos := penaltyOf_nonneg i.severity
  rw [hsplit]
  omega

/-- Deduplication by issue kind produces pairwise-distinct kinds, and never
emits a kind already in the `seen` accumulator. -/
theorem dedupeByType_spec (l : List DetectedIssue) (seen : List IssueType) :
    (dedupeByType l seen).Pairwise (fun a b => a.issue_type ≠ b.issue_type) ∧
    ∀ j ∈ dedupeByType l seen, j.issue_type ∉ seen := by
  induction l generalizing seen with
  | nil => simp [dedupeByType]
  | cons a l ih =>
    by_cases h : a.issue_type ∈ seen
    · simpa [dedupeByType, h] using ih seen
    · have h2 := ih (a.issue_type :: seen)
      constructor
      · simp only [dedupeByType, if_neg h]
        refine List.Pairwise.cons ?_ h2.1
        intro b hb
        have hb2 := h2.2 b hb
        simp only [List.mem_cons, not_or] at hb2
        exact fun e => hb2.1 e.symm
      · intro j hj
        simp only [dedupeByType, if_neg h] at hj
        rcases List.mem_cons.mp hj with rfl | hj2
        · exact h
        · have hb2 := h2.2 j hj2
          simp only [List.mem_cons, not_or] at hb2
          exact hb2.2

/-- Transitivity of the severity-rank comparator. -/
theorem leIssue_trans (a b c : DetectedIssue) :
    leIssue a b = true → leIssue b c = true → leIssue a c = true := by
  simp only [leIssue, decide_eq_true_eq]
  omega

/-- Totality of the severity-rank comparator. -/
theorem leIssue_total (a b : DetectedIssue) : (leIssue a b || leIssue b a) = true := by
  simp only [leIssue, Bool.or_eq_true, decide_eq_true_eq]
  omega

/-- C7: for every issue list, `prioritize_issues` outputs at most three issues,
at most one per issue kind, sorted by severity rank with BLOCKING before
WARNING before INFO. -/
theorem c7_prioritize_shape (issues : List DetectedIssue) :
    (prioritizeIssues issues).length ≤ 3 ∧
    (prioritizeIssues issues).Pairwise (fun a b => a.issue_type ≠ b.issue_type) ∧
    (prioritizeIssues issues).Pairwise
      (fun a b => severityOrder a.severity ≤ severityOrder b.severity) := by
  by_cases he : issues.isEmpty
  · simp [prioritizeIssues, he]
  · have hdef : prioritizeIssues issues
        = ((dedupeByType issues []).mergeSort leIssue).take 3 := by
      simp [prioritizeIssues, he]
    refine ⟨?_, ?_, ?_⟩
    · rw [hdef]
      exact List.length_take_le 3 _
    · rw [hdef]
      apply List.Pairwise.sublist (List.take_sublist 3 _)
      have hperm := List.mergeSort_perm (dedupeByType issues []) leIssue
      exact (List.Perm.pairwise_iff (fun hxy => Ne.symm hxy) hperm).mpr
        (dedupeByType_spec issues []).1
    · rw [hdef]
      apply List.Pairwise.sublist (List.take_sublist 3 _)
      have hs := List.sorted_mergeSort leIssue_trans leIssue_total (dedupeByType issues [])
      exact hs.imp (fun h => by simpa [leIssue, decide_eq_true_eq] using h)

/-- C2: every submission prepared with a non-empty mismatch list yields a
record and a returned status of NEEDS_REVIEW, regardless of the status the
registration endpoint (real or mock) reported. -/
theorem c2_mismatch_forces_review (hist : List SubmissionRecord)
    (docId reportedStatus dt side cc : String) (q : Int)
    (fd od : List (String × String)) (ms : List Mismatch) (rl : String) (rs : Int)
    (rf : List RiskFactor) (h : ms ≠ []) :
    (prepareAndSubmit hist docId reportedStatus dt side cc q fd od ms rl rs rf).1.status
      = "needs_review" ∧
    ∃ r, (prepareAndSubmit hist docId reportedStatus dt side cc q fd od ms rl rs rf).2
        = hist ++ [r] ∧ r.status = DerivStatus.needs_review := by
  have hne : ms.isEmpty = false := by
    cases ms with
    | nil => exact absurd rfl h
    | cons a t => rfl
  constructor
  · simp [prepareAndSubmit, hne, DerivStatus.value]
  · refine ⟨_, rfl, ?_⟩
    simp [prepareAndSubmit, hne]

/-- C2 witness: with one concrete mismatch the endpoint-reported "accepted" is
overridden to needs_review in both the result and the appended record. -/
theorem c2_witness :
    (prepareAndSubmit [] "D1" "accepted" "cnic" "front" "PK" 95 [] []
        [⟨"full_name", "A", "B", "m"⟩] "LOW" 0 []).1.status = "needs_review" ∧
    ∃ r, (prepareAndSubmit [] "D1" "accepted" "cnic" "front" "PK" 95 [] []
        [⟨"full_name", "A", "B", "m"⟩] "LOW" 0 []).2
      = [] ++ [r] ∧ r.status = DerivStatus.needs_review :=
  c2_mismatch_forces_review [] "D1" "accepted" "cnic" "front" "PK" 95 [] []
    [⟨"full_name", "A", "B", "m"⟩] "LOW" 0 [] (by decide)

/-- A concrete NEEDS_REVIEW submission record for the reviewer-action theorems. -/
def c3rec : SubmissionRecord :=
  { document_id := "DOC1"
    document_type := "cnic"
    side := "front"
    country_code := "PK"
    status := DerivStatus.needs_review
    quality_score := 80
    risk_level := "LOW"
    risk_score := 0
    risk_factors := []
    form_data := []
    ocr_data := []
    mismatches := []
    message := "m" }

/-- C3 counterexample: a reviewer override is not enforced to happen exactly
once — after an `approve` moved the record to ACCEPTED, a second
`review_submission` with `reject` still succeeds and moves it to REJECTED. -/
theorem c3_counterexample :
    (reviewSubmission [c3rec] "DOC1" "approve" "first").1 = true ∧
    (reviewSubmission [c3rec] "DOC1" "approve" "first").2.map
      (fun r => r.status) = [DerivStatus.accepted] ∧
    (reviewSubmission (reviewSubmission [c3rec] "DOC1" "approve" "first").2
      "DOC1" "reject" "second").1 = true ∧
    (reviewSubmission (reviewSubmission [c3rec] "DOC1" "approve" "first").2
      "DOC1" "reject" "second").2.map (fun r => r.status) = [DerivStatus.rejected] := by
  refine ⟨rfl, rfl, rfl, rfl⟩

/-- C3 (amended): a reviewer action on the first record carrying the given id
always succeeds, stamping a non-null reviewer_action and the notes;
`approve` sets ACCEPTED, `reject` sets REJECTED, and any other action leaves
the status unchanged; the remaining records are untouched.  The override is
not limited to a single application: a later action overwrites the earlier
one (last-write-wins). -/
theorem c3_reviewer_override (pre post : List SubmissionRecord) (r : SubmissionRecord)
    (action notes : String) (h : ∀ r2 ∈ pre, r2.document_id ≠ r.document_id) :
    reviewSubmission (pre ++ r :: post) r.document_id action notes
      = (true, pre ++ applyReview r action notes :: post) ∧
    (applyReview r action notes).reviewer_action = some action ∧
    (applyReview r action notes).reviewer_notes = notes ∧
    (applyReview r action notes).status
      = (if action = "approve" then DerivStatus.accepted
         else if action = "reject" then DerivStatus.rejected else r.status) := by
  refine ⟨?_, rfl, rfl, rfl⟩
  induction pre with
  | nil => simp [reviewSubmission]
  | cons p pre ih =>
    have hp : ¬ (p.document_id = r.document_id) := h p (by simp)
    have ihh := ih (fun r2 hr2 => h r2 (by simp [hr2]))
    simp [reviewSubmission, hp, ihh]

/-- C3 witness: the amended characterization at the concrete record `c3rec`
under an `approve` action. -/
theorem c3_witness :
    reviewSubmission [c3rec] "DOC1" "approve" "ok"
      = (true, [applyReview c3rec "approve" "ok"]) ∧
    (applyReview c3rec "approve" "ok").reviewer_action = some "approve" ∧
    (applyReview c3rec "approve" "ok").reviewer_notes = "ok" ∧
    (applyReview c3rec "approve" "ok").status = DerivStatus.accepted := by
  have h := c3_reviewer_override [] [] c3rec "approve" "ok" (by simp)
  simpa using h

/-- History lookup after an append: when no earlier record carries the id, the
freshly appended record is the one found. -/
theorem find_append_singleton (hist : List SubmissionRecord) (r : SubmissionRecord)
    (docId : String) (h : ∀ x ∈ hist, x.document_id ≠ docId)
    (hr : r.document_id = docId) :
    (hist ++ [r]).find? (fun x => x.document_id = docId) = some r := by
  rw [List.find?_append]
  have hnone : hist.find? (fun x => x.document_id = docId) = none := by
    rw [List.find?_eq_none]
    intro x hx
    simpa using h x hx
  simp [hnone, hr]

/-- Status lookup on a history extended by one fresh record. -/
theorem getStatus_append (hist : List SubmissionRecord) (r : SubmissionRecord)
    (docId : String) (h : ∀ x ∈ hist, x.document_id ≠ docId)
    (hr : r.document_id = docId) :
    getSubmissionStatus (hist ++ [r]) docId
      = { found := true
          status := some r.status.value
          message := some r.message
          quality_score := some r.quality_score } := by
  unfold getSubmissionStatus
  rw [find_append_singleton hist r docId h hr]

/-- C10: `prepare_and_submit` appends exactly one record, whose document_id is
the one in the returned dictionary, and an immediately following
`get_submission_status` with that id finds it with the same status value —
assuming the ids already in the history are distinct from the new one. -/
theorem c10_submit_then_status (hist : List SubmissionRecord)
    (docId reportedStatus dt side cc : String) (q : Int)
    (fd od : List (String × String)) (ms : List Mismatch) (rl : String) (rs : Int)
    (rf : List RiskFactor) (h : ∀ r ∈ hist, r.document_id ≠ docId) :
    ∃ r, (prepareAndSubmit hist docId reportedStatus dt side cc q fd od ms rl rs rf).2
        = hist ++ [r] ∧
      r.document_id
        = (prepareAndSubmit hist docId reportedStatus dt side cc q fd od ms rl rs rf).1.document_id ∧
      getSubmissionStatus
          (prepareAndSubmit hist docId reportedStatus dt side cc q fd od ms rl rs rf).2
          (prepareAndSubmit hist docId reportedStatus dt side cc q fd od ms rl rs rf).1.document_id
        = { found := true
            status := some (prepareAndSubmit hist docId reportedStatus dt side cc q fd od ms rl rs rf).1.status
            message := some r.message
            quality_score := some r.quality_score } := by
  refine ⟨_, rfl, rfl, ?_⟩
  exact getStatus_append hist _ docId h rfl

/-- C10 witness: a concrete submission into an empty history is found again by
`get_submission_status` with the same status. -/
theorem c10_witness :
    ∃ r, (prepareAndSubmit [] "D9" "accepted" "passport" "front" "GB" 90 [] [] [] "LOW" 5 []).2
        = [] ++ [r] ∧
      r.document_id
        = (prepareAndSubmit [] "D9" "accepted" "passport" "front" "GB" 90 [] [] [] "LOW" 5 []).1.document_id ∧
      getSubmissionStatus
          (prepareAndSubmit [] "D9" "accepted" "passport" "front" "GB" 90 [] [] [] "LOW" 5 []).2
          (prepareAndSubmit [] "D9" "accepted" "passport" "front" "GB" 90 [] [] [] "LOW" 5 []).1.document_id
        = { found := true
            status := some (prepareAndSubmit [] "D9" "accepted" "passport" "front" "GB" 90 [] [] [] "LOW" 5 []).1.status
            message := some r.message
            quality_score := some r.quality_score } :=
  c10_submit_then_status [] "D9" "accepted" "passport" "front" "GB" 90 [] [] [] "LOW" 5 []
    (by simp)

/-- C9 counterexample: the claim fails in both directions — on the input "42"
the parser returns the bare JSON number 42 (Python returns the int 42), not a
structured dictionary; and on nesting deeper than the recursion headroom
(here: three nested arrays against a headroom of 2, the same shape as
`json.loads` of thousands of nested brackets under CPython's default limit)
the primary decode raises RecursionError, which the
`except json.JSONDecodeError` arm does not catch, so the exception propagates
out of `_parse_response`. -/
theorem c9_counterexample :
    parseResponse 1000 "42" = Except.ok (JVal.num "42") ∧
    (JVal.num "42").isObj = false ∧
    parseResponse 2 "[[[5]]]" = Except.error "RecursionError" :=
  ⟨rfl, rfl, rfl⟩

/-- C9 (amended): for every recursion headroom and every input string,
`_parse_response` either returns a structured JSON value or raises
RecursionError (exactly when the primary decode exceeds the headroom on
deeply nested input) — no other exception escapes.  The returned value is the
decode of the cleaned first-to-last-brace slice when that succeeds — possibly
a non-dictionary value such as a bare number, returned as-is — else the
decode of the balanced-brace recovery slice (whose own failures, recursion
included, are absorbed), else the default minimal quality/issue verdict
marked with `parse_error`. -/
theorem c9_total_structured (depthLimit : Nat) (s : String) :
    (∃ v, jsonLoads depthLimit (primaryCandidate s) = Except.ok v ∧
       parseResponse depthLimit s = Except.ok v) ∨
    (jsonLoads depthLimit (primaryCandidate s) = Except.error JsonFail.recursion ∧
       parseResponse depthLimit s = Except.error "RecursionError") ∨
    (jsonLoads depthLimit (primaryCandidate s) = Except.error JsonFail.decode ∧
       ∃ t v, recoveryCandidate s = some t ∧ jsonLoads depthLimit t = Except.ok v ∧
         parseResponse depthLimit s = Except.ok v) ∨
    (parseResponse depthLimit s = Except.ok (defaultVerdict s) ∧
       jvalGet (defaultVerdict s) "parse_error" = some (JVal.bool true)) := by
  rcases hp : jsonLoads depthLimit (primaryCandidate s) with e | v
  · cases e with
    | recursion =>
      right; left
      refine ⟨rfl, ?_⟩
      unfold parseResponse
      rw [hp]
    | decode =>
      have hstep : parseResponse depthLimit s
          = Except.ok
            (match recoveryCandidate s with
             | some candidate =>
               match jsonLoads depthLimit candidate with
               | Except.ok v => v
               | Except.error _ => defaultVerdict s
             | none => defaultVerdict s) := by
        unfold parseResponse
        rw [hp]
      rcases hr : recoveryCandidate s with _ | t
      · right; right; right
        have hd : parseResponse depthLimit s = Except.ok (defaultVerdict s) := by
          rw [hstep, hr]
        exact ⟨hd, rfl⟩
      · rcases hj : jsonLoads depthLimit t with e2 | v
        · right; right; right
          have hd : parseResponse depthLimit s = Except.ok (defaultVerdict s) := by
            rw [hstep, hr]
            show Except.ok
                (match jsonLoads depthLimit t with
                 | Except.ok v => v
                 | Except.error _ => defaultVerdict s)
              = Except.ok (defaultVerdict s)
            rw [hj]
          exact ⟨hd, rfl⟩
        · right; right; left
          refine ⟨rfl, t, v, rfl, hj, ?_⟩
          rw [hstep, hr]
          show Except.ok
              (match jsonLoads depthLimit t with
               | Except.ok v2 => v2
               | Except.error _ => defaultVerdict s)
            = Except.ok v
          rw [hj]
  · left
    refine ⟨v, rfl, ?_⟩
    unfold parseResponse
    rw [hp]
